import Mathlib

/-!
Shallow embedding of the kamailio dialog module control surface
(src/src/modules/dialog/dialog.c): the mod_init parameter sanitization,
the dialog RPC commands (dlg.set_state, dlg.terminate_dlg, dlg.end_dlg,
dlg.list_match, dlg.stats_active, dlg.dump_file) and the script functions
dlg_get / dlg_get_var / dlg_set_var.

Machine integers of the C code are embedded as Int (C `int`) or Nat
(C `unsigned int`); `str` values (pointer + length) become `List Char`
for contents, or a null-flag plus length where only validity is inspected.
External collaborators (the rpc scanner, get_dlg lookup, regexec, the
transaction engine) are passed in as explicit inputs.
-/

set_option autoImplicit false

namespace KamDialog

/-! ### Dialog states

Modelled from the spec: the numeric state constants live in dlg_hash.h,
which is not among the provided sources; the spec fixes
"States: `UNCONFIRMED (0), EARLY (1), CONFIRMED_NA (2), CONFIRMED (3),
DELETED (4)`".
-/

def DLG_STATE_UNCONFIRMED : Int := 0

def DLG_STATE_EARLY : Int := 1

def DLG_STATE_CONFIRMED_NA : Int := 2

def DLG_STATE_CONFIRMED : Int := 3

def DLG_STATE_DELETED : Int := 4

/-- Modelled from the spec: the dirty bit or-ed into `dflags`
(`DLG_FLAG_CHANGED`, defined in the absent dlg_hash.h); the spec only says
"`dflags` (dirty bits for persistence)", the exact bit position is
immaterial to the claims. -/
def DLG_FLAG_CHANGED : Nat := 2

/-! ### mod_init parameter sanitization (dialog.c, mod_init) -/

/-- Embedding of dialog.c:542-546: sanitization of `dlg_h_id_start`;
`server_id` is the core global the value `-1` is replaced with. -/
def sanitize_h_id_start (server_id h_id_start : Int) : Int :=
  if h_id_start = -1 then server_id
  else if h_id_start < 0 then 0
  else h_id_start

/-- Embedding of dialog.c:548-550: sanitization of `dlg_h_id_step`. -/
def sanitize_h_id_step (h_id_step : Int) : Int :=
  if h_id_step < 1 then 1 else h_id_step

/-- Embedding of dialog.c:552: the keepalive-interval validation test of
mod_init; `true` means mod_init rejects the value and returns -1. -/
def ka_interval_rejected (ka_interval : Int) : Bool :=
  ka_interval ≠ 0 && ka_interval < 30

/-- C expression `1 << n` on a 32-bit signed int, as produced for the loop
counter values 0..31 used in mod_init's hash-size loop: for n ≤ 30 the value
is 2^n; at n = 31 the shift wraps to the two's-complement value -2^31. -/
def shl1 (n : Nat) : Int :=
  if n ≤ 30 then (2 : Int) ^ n else -(2 ^ 31)

/-- Embedding of the hash-size loop of mod_init (dialog.c:741-750):

```
for(n = 0; n < (8 * sizeof(n)); n++) {
    if(dlg_hash_size == (1 << n))
        break;
    if(n && dlg_hash_size < (1 << n)) {
        dlg_hash_size = 1 << (n - 1);
    }
}
```

The fuel argument counts the remaining iterations (the loop runs while
n < 32); note the source has no `break` after the rounding assignment, so
the loop keeps running on the already-assigned value. -/
def hash_size_loop : Nat → Nat → Int → Int
  | 0, _, size => size
  | fuel + 1, n, size =>
    if size = shl1 n then size
    else if n ≠ 0 ∧ size < shl1 n then hash_size_loop fuel (n + 1) (shl1 (n - 1))
    else hash_size_loop fuel (n + 1) size

/-- Embedding of the hash-size sanitization of mod_init (dialog.c:734-750):
values below 1 are first replaced by 1, then the 32-iteration loop above
runs. -/
def sanitize_hash_size (dlg_hash_size : Int) : Int :=
  let sz := if dlg_hash_size < 1 then 1 else dlg_hash_size
  hash_size_loop 32 0 sz

/-! ### mod_init validation chain (dialog.c:537-651)

The configuration parameters inspected by the pure validation checks are
carried in a structure; steps whose success depends on external
collaborators (statistics/rpc registration, message and header
initialization, AVP and pvar parsing, profile-table creation and the
tm/rr API loads) are represented by boolean fields recording whether the
step succeeds. Every failing check makes mod_init return -1; passing all
of them reaches the later initialization stages, which can themselves only
fail with -1 as well. -/

structure ModCfg where
  h_id_start : Int
  h_id_step : Int
  server_id : Int
  ka_interval : Int
  stats_reg_ok : Bool
  rpc_reg_ok : Bool
  faked_msg_ok : Bool
  bridge_hdrs_ok : Bool
  rr_param_ok : Bool
  keep_proxy_rr : Int
  timeout_spec_ok : Bool
  default_timeout : Int
  ruri_pvar_ok : Bool
  initial_cbs_inscript : Int
  seq_match_mode_ok : Bool
  detect_spirals : Int
  timeout_noreset : Int
  profiles_ok : Bool
  apis_ok : Bool
  deriving DecidableEq, Repr

/-- Embedding of the validation prefix of `mod_init` (dialog.c:542-651),
checks in source order; returns -1 on the first failing check and 0 when
all the modelled checks pass. The h_id sanitization (dialog.c:542-550)
precedes the checks and cannot fail. -/
def mod_init_checks (cfg : ModCfg) : Int :=
  if ka_interval_rejected cfg.ka_interval then -1
  else if ¬cfg.stats_reg_ok then -1
  else if ¬cfg.rpc_reg_ok then -1
  else if ¬cfg.faked_msg_ok then -1
  else if ¬cfg.bridge_hdrs_ok then -1
  else if ¬cfg.rr_param_ok then -1
  else if cfg.keep_proxy_rr < 0 ∨ cfg.keep_proxy_rr > 3 then -1
  else if ¬cfg.timeout_spec_ok then -1
  else if cfg.default_timeout ≤ 0 then -1
  else if ¬cfg.ruri_pvar_ok then -1
  else if cfg.initial_cbs_inscript ≠ 0 ∧ cfg.initial_cbs_inscript ≠ 1 then -1
  else if ¬cfg.seq_match_mode_ok then -1
  else if cfg.detect_spirals ≠ 0 ∧ cfg.detect_spirals ≠ 1 then -1
  else if cfg.timeout_noreset ≠ 0 ∧ cfg.timeout_noreset ≠ 1 then -1
  else if ¬cfg.profiles_ok then -1
  else if ¬cfg.apis_ok then -1
  else 0

/-- Outcome of an RPC handler: a fault with its numeric code and reason
string, or success. -/
inductive RpcOut where
  | fault (code : Nat) (reason : String)
  | ok
  deriving DecidableEq, Repr

/-! ### dlg.list_match (dialog.c:3559-3723, rpc_dlg_list_match_ex)

The POSIX regex collaborators are inputs: `re_ok` records whether
`regcomp` accepts the value (only consulted for the `re` operator) and
`re_match` is the `regexec` verdict on a field value. kamailio `str`
contents carry no NUL byte, so `strncmp(a, b, n) == 0` is the equality of
the first n characters. -/

/-- C `strncmp(a, b, n) == 0` on NUL-free kamailio string contents. -/
def strncmp0 (a b : List Char) (n : Nat) : Bool :=
  a.take n == b.take n

/-- Modelled from the spec: the core helper `str2int` (core/ut.h, not among
the provided sources) used for the numeric `gt`/`lt` comparison values —
"`gt`, `lt` (numeric on start-ts)"; decimal conversion into a 32-bit
unsigned accumulator, failing on any non-digit character. -/
def str2int_loop : List Char → Nat → Option Nat
  | [], acc => some acc
  | ch :: rest, acc =>
    if '0' ≤ ch ∧ ch ≤ '9' then
      str2int_loop rest ((acc * 10 + (ch.toNat - Char.toNat '0')) % 2 ^ 32)
    else none

/-- Modelled from the spec: see `str2int_loop`. -/
def str2int (s : List Char) : Option Nat :=
  str2int_loop s 0

/-- The dialog fields consulted by dlg.list_match. -/
structure MDlg where
  req_uri : List Char
  from_uri : List Char
  to_uri : List Char
  callid : List Char
  start_ts : Nat
  deriving DecidableEq, Repr

/-- Embedding of the key parser of rpc_dlg_list_match_ex
(dialog.c:3589-3603): `vkey` codes ruri=0, furi=1, turi=2, callid=3,
start_ts=4; `none` is the invalid-key fault. -/
def parse_mkey (mkey : List Char) : Option Nat :=
  if mkey = String.toList "ruri" then some 0
  else if mkey = String.toList "furi" then some 1
  else if mkey = String.toList "turi" then some 2
  else if mkey = String.toList "callid" then some 3
  else if mkey = String.toList "start_ts" then some 4
  else none

/-- Embedding of the operator parser of rpc_dlg_list_match_ex
(dialog.c:3609-3629), reached only for two-character operators: `vop`
codes eq=0, re=1, sw=2, gt=3, lt=4; `none` is the invalid-operator
fault. -/
def parse_mop (mop : List Char) : Option Nat :=
  if mop = String.toList "eq" then some 0
  else if mop = String.toList "re" then some 1
  else if mop = String.toList "sw" then some 2
  else if mop = String.toList "gt" then some 3
  else if mop = String.toList "lt" then some 4
  else none

/-- The string field selected by `vkey` (the first switch of the scan loop,
dialog.c:3652-3668); for `vkey = 4` the C code leaves `sval` as the
initializer {NULL, 0}, embedded as the empty string. -/
def sel_field (vkey : Nat) (dlg : MDlg) : List Char :=
  match vkey with
  | 0 => dlg.req_uri
  | 1 => dlg.from_uri
  | 2 => dlg.to_uri
  | 3 => dlg.callid
  | _ => []

/-- Embedding of the per-dialog match decision of rpc_dlg_list_match_ex
(the second switch of the scan loop, dialog.c:3669-3701). -/
def dlg_match_one (vkey vop : Nat) (mval : List Char)
    (re_match : List Char → Bool) (dlg : MDlg) : Bool :=
  let sval := sel_field vkey dlg
  let ival := dlg.start_ts
  match vop with
  | 0 => mval.length == sval.length && strncmp0 mval sval mval.length
  | 1 => re_match sval
  | 2 => mval.length ≤ sval.length && strncmp0 mval sval mval.length
  | 3 =>
    match str2int mval with
    | some mival => decide (ival > mival)
    | none => false
  | 4 =>
    match str2int mval with
    | some mival => decide (ival < mival)
    | none => false
  | _ => false

/-- Outcome of dlg.list_match: a fault raised by parameter validation
before the table is scanned, or the scan result — the list of dialogs
printed and the final rpc outcome (fault 404 when nothing matched). -/
inductive MatchRes where
  | early_fault (code : Nat) (reason : String)
  | scanned (printed : List MDlg) (out : RpcOut)
  deriving DecidableEq, Repr

/-- Embedding of `rpc_dlg_list_match_ex` (dialog.c:3559-3723). `scan_n` is
the number of required parameters read; `nlimit` is the optional fourth
parameter (defaulted to 0 when absent); `dlgs` lists the dialogs of the
table in scan order (the shard nesting only affects grouping, not which
dialogs are visited, and the double `break` on reaching `nlimit` matches
truncating the matched list). -/
def rpc_dlg_list_match (scan_n : Nat) (mkey mop mval : List Char)
    (re_ok : Bool) (re_match : List Char → Bool) (nlimit : Int)
    (dlgs : List MDlg) : MatchRes :=
  if scan_n < 3 then MatchRes.early_fault 500 "Invalid parameters"
  else if mkey.length = 0 ∨ mop.length = 0 ∨ mval.length = 0 then
    MatchRes.early_fault 500 "Invalid parameters"
  else
    match parse_mkey mkey with
    | none => MatchRes.early_fault 500 "Invalid matching key parameter"
    | some vkey =>
      if mop.length ≠ 2 then
        MatchRes.early_fault 500 "Invalid matching operator parameter"
      else
        match parse_mop mop with
        | none => MatchRes.early_fault 500 "Invalid matching operator parameter"
        | some vop =>
          if vop = 1 ∧ ¬re_ok then
            MatchRes.early_fault 500 "Invalid matching value parameter"
          else if vkey = 4 ∧ vop ≤ 2 then
            MatchRes.early_fault 500
              "Matching operator not supported with start_ts key"
          else if vkey ≠ 4 ∧ vop ≥ 3 then
            MatchRes.early_fault 500 "Matching operator not supported"
          else
            let ms := dlgs.filter (dlg_match_one vkey vop mval re_match)
            let printed := if nlimit > 0 then ms.take nlimit.toNat else ms
            if ms.length = 0 then
              MatchRes.scanned printed (RpcOut.fault 404 "Not found")
            else MatchRes.scanned printed RpcOut.ok

/-! ### Dialog-identifier RPC commands (dialog.c:3259-3428)

The rpc parameter scanner and the table lookup `get_dlg`/`dlg_lookup` are
external inputs: `scan_n` is the number of parameters the scanner managed
to read, `found` is the lookup result (`none` when no dialog matches).
-/

/-- The dialog-record fields touched by `rpc_dlg_set_state`:
state, the three timestamps and the dirty-flag word. -/
structure DlgCell where
  state : Int
  init_ts : Nat
  start_ts : Nat
  end_ts : Nat
  dflags : Nat
  deriving DecidableEq, Repr

/-- Embedding of `rpc_dlg_set_state` (dialog.c:3298-3363). `scan_n` is the
number of parameters read (fault 400 below 3); `sval` is the requested
state, defaulted by the C initializer to `DLG_STATE_DELETED` when the
fourth parameter is absent; `found` is the `get_dlg` result; `now` is
`ksr_time_uint`. Returns the rpc outcome and the updated dialog record
(`none` when no dialog was looked up or found). -/
def rpc_dlg_set_state (scan_n : Nat) (sval : Int) (found : Option DlgCell)
    (now : Nat) : RpcOut × Option DlgCell :=
  if scan_n < 3 then
    (RpcOut.fault 400 "Need the callid, from tag,to tag and state", none)
  else if sval < DLG_STATE_UNCONFIRMED ∨ sval > DLG_STATE_DELETED then
    (RpcOut.fault 500 "Invalid state value", none)
  else
    match found with
    | none => (RpcOut.fault 500 "Dialog not found", none)
    | some dlg =>
      let ostate := dlg.state
      let dlg1 : DlgCell :=
        if ostate = DLG_STATE_CONFIRMED ∧ sval = DLG_STATE_DELETED then
          ⟨sval, now, dlg.start_ts, now, dlg.dflags ||| DLG_FLAG_CHANGED⟩
        else
          ⟨sval, dlg.init_ts, dlg.start_ts, dlg.end_ts,
            dlg.dflags ||| DLG_FLAG_CHANGED⟩
      (RpcOut.ok, some dlg1)

/-- Embedding of `rpc_dlg_terminate_dlg` (dialog.c:3259-3296): fault 400
when fewer than 3 parameters were read, fault 500 when `get_dlg` finds no
dialog, otherwise `dlg_bye_all` is invoked and the handler returns without
output. -/
def rpc_dlg_terminate_dlg (scan_n : Nat) (found : Option DlgCell) : RpcOut :=
  if scan_n < 3 then RpcOut.fault 400 "Need a Callid ,from tag ,to tag"
  else
    match found with
    | none => RpcOut.fault 500 "Couldnt find callid in dialog"
    | some _ => RpcOut.ok

/-- Embedding of `rpc_end_dlg_entry_id` (dialog.c:3402-3428): fault 500
when fewer than 2 parameters were read, fault 404 when `dlg_lookup` finds
no dialog for (h_entry, h_id), otherwise `dlg_bye_all` is invoked. -/
def rpc_end_dlg_entry_id (scan_n : Nat) (found : Option DlgCell) : RpcOut :=
  if scan_n < 2 then RpcOut.fault 500 "Invalid parameters"
  else
    match found with
    | none => RpcOut.fault 404 "Dialog not found"
    | some _ => RpcOut.ok

/-! ### dlg.dump_file record layout (dialog.c:2805-2935,
internal_rpc_dump_file_dlg)

The JSON tree built by the srjson calls is embedded as a value of `JVal`;
an object keeps its fields as a list of (name, value) pairs in insertion
order, exactly the order of the `srjson_Add*ToObject` calls. -/

/-- A JSON value as built by the srjson calls of the dump helper. -/
inductive JVal where
  | jnum (n : Int)
  | jstr (s : List Char)
  | jobj (fields : List (String × JVal))

/-- One dialog leg (caller or callee) as read by the dump helper;
`bind_addr` is `none` when the C pointer is NULL, otherwise the socket
description string. -/
structure DlgLeg where
  tag : List Char
  contact : List Char
  cseq : List Char
  route_set : List Char
  bind_addr : Option (List Char)

/-- The dialog-record fields read by `internal_rpc_dump_file_dlg`.
Profile links carry (profile name, has_value flag, linker value); dialog
variables carry (key, value). -/
structure DumpDlg where
  h_entry : Nat
  h_id : Nat
  ref : Int
  callid : List Char
  from_uri : List Char
  to_uri : List Char
  state : Int
  start_ts : Nat
  init_ts : Nat
  end_ts : Nat
  tl_timeout : Nat
  lifetime : Nat
  dflags : Nat
  sflags : Nat
  iflags : Nat
  caller : DlgLeg
  callee : DlgLeg
  profile_links : List (String × Bool × List Char)
  vars : List (String × List Char)

/-- The leg sub-object of the dump record (dialog.c:2841-2885): the NULL
`bind_addr` socket prints as `empty_str`. -/
def dump_leg_json (leg : DlgLeg) : List (String × JVal) :=
  [("tag", JVal.jstr leg.tag),
   ("contact", JVal.jstr leg.contact),
   ("cseq", JVal.jstr leg.cseq),
   ("route_set", JVal.jstr leg.route_set),
   ("socket", JVal.jstr (leg.bind_addr.getD []))]

/-- The profiles sub-object (dialog.c:2893-2902): entries are emitted only
while `dlg->state < DLG_STATE_DELETED`; a no-value profile prints the
empty string as its value. -/
def dump_profiles_json (d : DumpDlg) : List (String × JVal) :=
  if d.state < DLG_STATE_DELETED then
    d.profile_links.map (fun pl =>
      (pl.1, JVal.jstr (if pl.2.1 then pl.2.2 else [])))
  else []

/-- The variables sub-object (dialog.c:2911-2915), likewise gated on
`dlg->state < DLG_STATE_DELETED`. -/
def dump_vars_json (d : DumpDlg) : List (String × JVal) :=
  if d.state < DLG_STATE_DELETED then
    d.vars.map (fun v => (v.1, JVal.jstr v.2))
  else []

/-- Embedding of `internal_rpc_dump_file_dlg` (dialog.c:2805-2935) on its
success path: the top-level JSON object written to the dump file, fields
in emission order. `tnow` is `time(0)` and `ticks` is `get_ticks()`, the
inputs of the timeout computation at dialog.c:2834-2835. -/
def dump_file_dlg (d : DumpDlg) (tnow ticks : Int) : List (String × JVal) :=
  [("h_entry", JVal.jnum d.h_entry),
   ("h_id", JVal.jnum d.h_id),
   ("ref", JVal.jnum d.ref),
   ("call_id", JVal.jstr d.callid),
   ("from_uri", JVal.jstr d.from_uri),
   ("to_uri", JVal.jstr d.to_uri),
   ("state", JVal.jnum d.state),
   ("start_ts", JVal.jnum d.start_ts),
   ("init_ts", JVal.jnum d.init_ts),
   ("end_ts", JVal.jnum d.end_ts),
   ("timeout",
     JVal.jnum (if d.tl_timeout ≠ 0 then tnow + d.tl_timeout - ticks else 0)),
   ("lifetime", JVal.jnum d.lifetime),
   ("dflags", JVal.jnum d.dflags),
   ("sflags", JVal.jnum d.sflags),
   ("iflags", JVal.jnum d.iflags),
   ("caller", JVal.jobj (dump_leg_json d.caller)),
   ("callee", JVal.jobj (dump_leg_json d.callee)),
   ("profiles", JVal.jobj (dump_profiles_json d)),
   ("variables", JVal.jobj (dump_vars_json d))]

/-! ### dlg.stats_active (dialog.c:3503-3550, rpc_dlg_stats_active) -/

/-- The dialog fields consulted by dlg.stats_active: the state and whether
`bind_addr[0]` is NULL (the own-dialog filter). -/
structure SDlg where
  state : Int
  bind0_null : Bool
  deriving DecidableEq, Repr

/-- The four counters of the scan loop, in declaration order
(starting, connecting, answering, ongoing). -/
abbrev StatsAcc := Nat × Nat × Nat × Nat

/-- Embedding of one iteration of the scan loop of `rpc_dlg_stats_active`
(dialog.c:3519-3538): the own-dialog filter, then the switch on the
state; states outside the four cases fall to the default and change
nothing. -/
def stats_step (dlg_own : Int) (acc : StatsAcc) (d : SDlg) : StatsAcc :=
  if dlg_own ≠ 0 ∧ d.bind0_null then acc
  else if d.state = DLG_STATE_UNCONFIRMED then (acc.1 + 1, acc.2.1, acc.2.2.1, acc.2.2.2)
  else if d.state = DLG_STATE_EARLY then (acc.1, acc.2.1 + 1, acc.2.2.1, acc.2.2.2)
  else if d.state = DLG_STATE_CONFIRMED_NA then (acc.1, acc.2.1, acc.2.2.1 + 1, acc.2.2.2)
  else if d.state = DLG_STATE_CONFIRMED then (acc.1, acc.2.1, acc.2.2.1, acc.2.2.2 + 1)
  else acc

/-- The structure emitted by dlg.stats_active (dialog.c:3547-3549). -/
structure ActiveStats where
  starting : Nat
  connecting : Nat
  answering : Nat
  ongoing : Nat
  all : Nat
  deriving DecidableEq, Repr

/-- Embedding of `rpc_dlg_stats_active` (dialog.c:3503-3550): the table is
scanned shard by shard (`shards` lists the per-entry dialog chains in
order), the counters accumulate across all shards, and the emitted `all`
field is the sum the handler passes to `rpc->struct_add`. -/
def rpc_dlg_stats_active (dlg_own : Int) (shards : List (List SDlg)) :
    ActiveStats :=
  let cs := shards.foldl (fun acc shard => shard.foldl (stats_step dlg_own) acc)
    (0, 0, 0, 0)
  ⟨cs.1, cs.2.1, cs.2.2.1, cs.2.2.2, cs.1 + cs.2.1 + cs.2.2.1 + cs.2.2.2⟩

/-! ### Script functions dlg_get / dlg_get_var / dlg_set_var
(dialog.c:1868-1898, 1999-2026, 2082-2109)

A C `str *` parameter is `Option KStr` (`none` models a NULL `str`
pointer); `KStr` records whether the contained `s` pointer is NULL and the
length. The collaborators are inputs: `found` is whether `get_dlg` locates
a dialog, `varval_ok` / `setvar_ok` whether `get_dlg_varval` /
`set_dlg_variable` succeed. Each embedding returns the C return value
paired with a flag recording whether the `get_dlg` lookup was reached. -/

/-- A kamailio `str` value as far as the parameter checks inspect it. -/
structure KStr where
  s_null : Bool
  len : Nat
  deriving DecidableEq, Repr

/-- The test `p == NULL || p->s == NULL || p->len == 0` applied by the
Call-ID and From-tag checks of all three functions and by the To-tag check
of `ki_dlg_get`. -/
def kstr_bad (p : Option KStr) : Bool :=
  match p with
  | none => true
  | some k => k.s_null || k.len == 0

/-- Embedding of `ki_dlg_get` (dialog.c:2082-2109): full emptiness checks
on all three identifiers, then the lookup; returns (C return value,
whether `get_dlg` was called). -/
def ki_dlg_get (sc sf st : Option KStr) (found : Bool) : Int × Bool :=
  if kstr_bad sc then (-1, false)
  else if kstr_bad sf then (-1, false)
  else if kstr_bad st then (-1, false)
  else if ¬found then (-1, true)
  else (1, true)

/-- Embedding of `ki_dlg_get_var_helper` (dialog.c:1868-1898): the To-tag
check is only `st == NULL`; returns (C return value, whether `get_dlg`
was called). -/
def ki_dlg_get_var_helper (sc sf st : Option KStr) (found varval_ok : Bool) :
    Int × Bool :=
  if kstr_bad sc then (-1, false)
  else if kstr_bad sf then (-1, false)
  else if st = none then (-1, false)
  else if ¬found then (-1, true)
  else if ¬varval_ok then (-1, true)
  else (0, true)

/-- Embedding of `ki_dlg_set_var` (dialog.c:1999-2026): the To-tag check is
only `st == NULL`; returns (C return value, whether `get_dlg` was
called). -/
def ki_dlg_set_var (sc sf st : Option KStr) (found setvar_ok : Bool) :
    Int × Bool :=
  if kstr_bad sc then (-1, false)
  else if kstr_bad sf then (-1, false)
  else if st = none then (-1, false)
  else if ¬found then (-1, true)
  else if ¬setvar_ok then (-1, true)
  else (1, true)

end KamDialog

namespace KamDialog

/-! ## Claim theorems -/

/-- C1 counterexample: the dlg.set_state RPC command is not monotone — on a
dialog in state CONFIRMED (3) it stores the requested state EARLY (1), a
state value strictly smaller than the dialog's current state. -/
theorem c1_set_state_can_regress :
    (rpc_dlg_set_state 4 DLG_STATE_EARLY
        (some ⟨DLG_STATE_CONFIRMED, 5, 6, 0, 0⟩) 100).2
      = some ⟨DLG_STATE_EARLY, 5, 6, 0, 2⟩
    ∧ DLG_STATE_EARLY < DLG_STATE_CONFIRMED := by
  decide

/-- C1 amended: the dialog state machine keeps states non-decreasing, but
the dlg.set_state RPC command is an exception: whenever its parameters are
read and the requested state value is in the valid range, it stores exactly
the requested state on the dialog it finds, regardless of the order between
the current and the requested state — including regressions. -/
theorem c1_set_state_stores_requested (scan_n : Nat) (sval : Int)
    (dlg : DlgCell) (now : Nat) (h1 : 3 ≤ scan_n)
    (h2 : DLG_STATE_UNCONFIRMED ≤ sval) (h3 : sval ≤ DLG_STATE_DELETED) :
    ∃ d, (rpc_dlg_set_state scan_n sval (some dlg) now).2 = some d
      ∧ d.state = sval := by
  unfold rpc_dlg_set_state
  rw [if_neg (by omega), if_neg (by push_neg; exact ⟨h2, h3⟩)]
  by_cases hc : dlg.state = DLG_STATE_CONFIRMED ∧ sval = DLG_STATE_DELETED
  · simp only [hc, if_pos]
    exact ⟨_, rfl, rfl⟩
  · simp only [if_neg hc]
    exact ⟨_, rfl, rfl⟩

/-- C1 witness for the amended theorem at a concrete input. -/
theorem c1_set_state_stores_requested_witness :
    ∃ d, (rpc_dlg_set_state 4 1 (some ⟨3, 5, 6, 0, 0⟩) 100).2 = some d
      ∧ d.state = 1 :=
  c1_set_state_stores_requested 4 1 ⟨3, 5, 6, 0, 0⟩ 100 (by decide)
    (by decide) (by decide)

/-- C2 counterexample: dlg.terminate_dlg with readable parameters but no
matching dialog reports fault code 500, not the 404 the claim requires for
a not-found dialog. -/
theorem c2_terminate_not_found_is_500 :
    rpc_dlg_terminate_dlg 3 none
      = RpcOut.fault 500 "Couldnt find callid in dialog"
    ∧ (500 : Nat) ≠ 404 := by
  decide

/-- C2 amended: the fault codes actually used are: dlg.terminate_dlg —
400 for unreadable parameters, 500 when the dialog is not found;
dlg.set_state — 400 for unreadable parameters, 500 for an out-of-range
state value and 500 when the dialog is not found; dlg.end_dlg — 500 for
unreadable parameters and 404 when the dialog is not found. -/
theorem c2_rpc_fault_codes (scan_n : Nat) (sval : Int)
    (found : Option DlgCell) (now : Nat) :
    (scan_n < 3 → rpc_dlg_terminate_dlg scan_n found
        = RpcOut.fault 400 "Need a Callid ,from tag ,to tag")
    ∧ (3 ≤ scan_n → rpc_dlg_terminate_dlg scan_n none
        = RpcOut.fault 500 "Couldnt find callid in dialog")
    ∧ (scan_n < 3 → (rpc_dlg_set_state scan_n sval found now).1
        = RpcOut.fault 400 "Need the callid, from tag,to tag and state")
    ∧ (3 ≤ scan_n → sval < DLG_STATE_UNCONFIRMED ∨ sval > DLG_STATE_DELETED →
        (rpc_dlg_set_state scan_n sval found now).1
          = RpcOut.fault 500 "Invalid state value")
    ∧ (3 ≤ scan_n → DLG_STATE_UNCONFIRMED ≤ sval → sval ≤ DLG_STATE_DELETED →
        (rpc_dlg_set_state scan_n sval none now).1
          = RpcOut.fault 500 "Dialog not found")
    ∧ (scan_n < 2 → rpc_end_dlg_entry_id scan_n found
        = RpcOut.fault 500 "Invalid parameters")
    ∧ (2 ≤ scan_n → rpc_end_dlg_entry_id scan_n none
        = RpcOut.fault 404 "Dialog not found") := by
  refine ⟨?_, ?_, ?_, ?_, ?_, ?_, ?_⟩
  · intro h
    unfold rpc_dlg_terminate_dlg
    rw [if_pos h]
  · intro h
    unfold rpc_dlg_terminate_dlg
    rw [if_neg (by omega)]
  · intro h
    unfold rpc_dlg_set_state
    rw [if_pos h]
  · intro h hv
    unfold rpc_dlg_set_state
    rw [if_neg (by omega), if_pos hv]
  · intro h h2 h3
    unfold rpc_dlg_set_state
    rw [if_neg (by omega), if_neg (by push_neg; exact ⟨h2, h3⟩)]
  · intro h
    unfold rpc_end_dlg_entry_id
    rw [if_pos h]
  · intro h
    unfold rpc_end_dlg_entry_id
    rw [if_neg (by omega)]

/-- C2 witness for the amended theorem at a concrete input. -/
theorem c2_rpc_fault_codes_witness :
    rpc_dlg_terminate_dlg 3 none
      = RpcOut.fault 500 "Couldnt find callid in dialog"
    ∧ rpc_end_dlg_entry_id 2 none = RpcOut.fault 404 "Dialog not found" :=
  ⟨(c2_rpc_fault_codes 3 0 none 0).2.1 (by decide),
    (c2_rpc_fault_codes 3 0 none 0).2.2.2.2.2.2 (by decide)⟩

/-- C3: the hash-size sanitization of mod_init does not round a
non-power-of-two down to the largest smaller power of two: the rounding
loop has no break after its assignment, so a configured hash_size of 5
ends up as 2^29 = 536870912 instead of 4, while exact powers of two and
values below 1 behave as the claim states. -/
theorem c3_hash_size_rounding_diverges :
    sanitize_hash_size 5 = 536870912
    ∧ sanitize_hash_size 4 = 4
    ∧ sanitize_hash_size 0 = 1
    ∧ (536870912 : Int) ≠ 4 := by
  decide

/-- C5 counterexample: when dlg.set_state moves a dialog from CONFIRMED (3)
to DELETED (4), it overwrites init_ts (11 becomes the current time 777)
along with end_ts, contradicting the claim that init-ts remains
unchanged. -/
theorem c5_set_state_overwrites_init_ts :
    rpc_dlg_set_state 4 DLG_STATE_DELETED
        (some ⟨DLG_STATE_CONFIRMED, 11, 22, 0, 0⟩) 777
      = (RpcOut.ok, some ⟨DLG_STATE_DELETED, 777, 22, 777, 2⟩)
    ∧ (777 : Nat) ≠ 11 := by
  decide

/-- C5 amended: when dlg.set_state moves a dialog from confirmed to
deleted it sets both end-ts and init-ts to the current time while start-ts
remains unchanged; for any other (old state, new state) pair no timestamp
field is modified. -/
theorem c5_set_state_timestamps (scan_n : Nat) (sval : Int) (dlg : DlgCell)
    (now : Nat) (h1 : 3 ≤ scan_n) (h2 : DLG_STATE_UNCONFIRMED ≤ sval)
    (h3 : sval ≤ DLG_STATE_DELETED) :
    (dlg.state = DLG_STATE_CONFIRMED ∧ sval = DLG_STATE_DELETED →
      (rpc_dlg_set_state scan_n sval (some dlg) now).2
        = some ⟨sval, now, dlg.start_ts, now, dlg.dflags ||| DLG_FLAG_CHANGED⟩)
    ∧ (¬(dlg.state = DLG_STATE_CONFIRMED ∧ sval = DLG_STATE_DELETED) →
      (rpc_dlg_set_state scan_n sval (some dlg) now).2
        = some ⟨sval, dlg.init_ts, dlg.start_ts, dlg.end_ts,
            dlg.dflags ||| DLG_FLAG_CHANGED⟩) := by
  unfold rpc_dlg_set_state
  rw [if_neg (by omega), if_neg (by push_neg; exact ⟨h2, h3⟩)]
  constructor
  · intro hc
    simp only [if_pos hc]
  · intro hc
    simp only [if_neg hc]

/-- C5 witness for the amended theorem at a concrete input. -/
theorem c5_set_state_timestamps_witness :
    (rpc_dlg_set_state 4 4 (some ⟨3, 11, 22, 0, 0⟩) 777).2
      = some ⟨4, 777, 22, 777, 2⟩ :=
  (c5_set_state_timestamps 4 4 ⟨3, 11, 22, 0, 0⟩ 777 (by decide) (by decide)
    (by decide)).1 (by decide)

/-- C7: mod_init returns -1 whenever the keepalive interval is nonzero but
below 30 or the default timeout is at most 0; a keepalive interval of
exactly 0 or at least 30 passes the keepalive-interval check, and a
configuration that satisfies every modelled check (shown for keepalive
intervals 0 and 30) initializes successfully. -/
theorem c7_mod_init_validation (cfg : ModCfg) :
    (cfg.ka_interval ≠ 0 ∧ cfg.ka_interval < 30 → mod_init_checks cfg = -1)
    ∧ (cfg.default_timeout ≤ 0 → mod_init_checks cfg = -1)
    ∧ ((cfg.ka_interval = 0 ∨ 30 ≤ cfg.ka_interval) →
        ka_interval_rejected cfg.ka_interval = false)
    ∧ mod_init_checks ⟨0, 1, 0, 0, true, true, true, true, true, 0, true, 60,
        true, 0, true, 0, 0, true, true⟩ = 0
    ∧ mod_init_checks ⟨0, 1, 0, 30, true, true, true, true, true, 0, true, 60,
        true, 0, true, 0, 0, true, true⟩ = 0 := by
  refine ⟨?_, ?_, ?_, by decide, by decide⟩
  · intro h
    unfold mod_init_checks
    rw [if_pos]
    unfold ka_interval_rejected
    simp only [Bool.and_eq_true, decide_eq_true_eq, ne_eq]
    exact ⟨by simpa using h.1, by simpa using h.2⟩
  · intro h
    unfold mod_init_checks ka_interval_rejected
    split_ifs <;> omega
  · intro h
    unfold ka_interval_rejected
    rcases h with h | h
    · simp [h]
    · simp only [Bool.and_eq_false_iff]
      right
      simpa using by omega

/-- C7 witness at a concrete configuration. -/
theorem c7_mod_init_validation_witness :
    mod_init_checks ⟨0, 1, 0, 10, true, true, true, true, true, 0, true, 60,
        true, 0, true, 0, 0, true, true⟩ = -1
    ∧ ka_interval_rejected 30 = false :=
  ⟨(c7_mod_init_validation ⟨0, 1, 0, 10, true, true, true, true, true, 0,
      true, 60, true, 0, true, 0, 0, true, true⟩).1 (by decide),
    (c7_mod_init_validation ⟨0, 1, 0, 30, true, true, true, true, true, 0,
      true, 60, true, 0, true, 0, 0, true, true⟩).2.2.1 (by decide)⟩

/-- C8 counterexample: with a negative server id (-7) and a configured
h_id_start of -1, the sanitized h_id_start is the server id -7, which
violates the claimed invariant h_id_start ≥ 0. -/
theorem c8_h_id_start_negative_server_id :
    sanitize_h_id_start (-7) (-1) = -7 ∧ (-7 : Int) < 0 := by
  decide

/-- C8 amended: after sanitization h_id_step is always at least 1; a
configured h_id_start of -1 is replaced by the server id, any other
negative start value by 0 and a nonnegative value is kept, so h_id_start
is nonnegative whenever the server id is nonnegative (a negative server
id is carried over as a negative h_id_start). -/
theorem c8_h_id_sanitization (server_id h_id_start h_id_step : Int) :
    1 ≤ sanitize_h_id_step h_id_step
    ∧ (h_id_start = -1 →
        sanitize_h_id_start server_id h_id_start = server_id)
    ∧ (h_id_start < 0 → h_id_start ≠ -1 →
        sanitize_h_id_start server_id h_id_start = 0)
    ∧ (0 ≤ h_id_start →
        sanitize_h_id_start server_id h_id_start = h_id_start)
    ∧ (0 ≤ server_id →
        0 ≤ sanitize_h_id_start server_id h_id_start) := by
  unfold sanitize_h_id_start sanitize_h_id_step
  refine ⟨?_, ?_, ?_, ?_, ?_⟩
  · split_ifs <;> omega
  · intro h
    rw [if_pos h]
  · intro h h1
    rw [if_neg h1, if_pos h]
  · intro h
    rw [if_neg (by omega), if_neg (by omega)]
  · intro h
    split_ifs <;> omega

/-- C8 witness for the amended theorem at a concrete input. -/
theorem c8_h_id_sanitization_witness :
    sanitize_h_id_start 7 (-1) = 7 ∧ 1 ≤ sanitize_h_id_step 0 :=
  ⟨(c8_h_id_sanitization 7 (-1) 0).2.1 (by decide),
    (c8_h_id_sanitization 7 (-1) 0).1⟩

/-- C6: the JSON record written by dlg.dump_file for a dialog carries
exactly the fields of the portable layout, in emission order: h_entry,
h_id, ref, call_id, from_uri, to_uri, state, start_ts, init_ts, end_ts,
timeout, lifetime, dflags, sflags, iflags, then a caller and a callee
object each with tag, contact, cseq, route_set, socket, then the profiles
and variables sections. -/
theorem c6_dump_file_layout (d : DumpDlg) (tnow ticks : Int) :
    (dump_file_dlg d tnow ticks).map Prod.fst
      = ["h_entry", "h_id", "ref", "call_id", "from_uri", "to_uri", "state",
         "start_ts", "init_ts", "end_ts", "timeout", "lifetime", "dflags",
         "sflags", "iflags", "caller", "callee", "profiles", "variables"]
    ∧ (∀ leg : DlgLeg, (dump_leg_json leg).map Prod.fst
        = ["tag", "contact", "cseq", "route_set", "socket"])
    ∧ ("caller", JVal.jobj (dump_leg_json d.caller)) ∈ dump_file_dlg d tnow ticks
    ∧ ("callee", JVal.jobj (dump_leg_json d.callee)) ∈ dump_file_dlg d tnow ticks
    ∧ ("profiles", JVal.jobj (dump_profiles_json d)) ∈ dump_file_dlg d tnow ticks
    ∧ ("variables", JVal.jobj (dump_vars_json d)) ∈ dump_file_dlg d tnow ticks := by
  refine ⟨rfl, fun leg => rfl, ?_, ?_, ?_, ?_⟩ <;> simp [dump_file_dlg]

/-- Helper for C9: a dialog whose state is outside the four active states
leaves the stats accumulator unchanged (both when skipped by the own-dialog
filter and through the switch default). -/
theorem stats_step_of_inactive (own : Int) (acc : StatsAcc) (d : SDlg)
    (h0 : d.state ≠ DLG_STATE_UNCONFIRMED) (h1 : d.state ≠ DLG_STATE_EARLY)
    (h2 : d.state ≠ DLG_STATE_CONFIRMED_NA)
    (h3 : d.state ≠ DLG_STATE_CONFIRMED) :
    stats_step own acc d = acc := by
  unfold stats_step
  split_ifs <;> simp_all

/-- C9: in the dlg.stats_active output the `all` field always equals the
sum of the starting, connecting, answering and ongoing counters, and a
dialog whose state lies outside unconfirmed, early, confirmed-no-ack and
confirmed (in particular a deleted dialog) contributes to none of the five
counts: removing it from its shard leaves the whole output unchanged. -/
theorem c9_stats_active_sums (own : Int) (shards pre post : List (List SDlg))
    (mid1 mid2 : List SDlg) (d : SDlg)
    (h0 : d.state ≠ DLG_STATE_UNCONFIRMED) (h1 : d.state ≠ DLG_STATE_EARLY)
    (h2 : d.state ≠ DLG_STATE_CONFIRMED_NA)
    (h3 : d.state ≠ DLG_STATE_CONFIRMED) :
    (rpc_dlg_stats_active own shards).all
      = (rpc_dlg_stats_active own shards).starting
        + (rpc_dlg_stats_active own shards).connecting
        + (rpc_dlg_stats_active own shards).answering
        + (rpc_dlg_stats_active own shards).ongoing
    ∧ rpc_dlg_stats_active own (pre ++ (mid1 ++ d :: mid2) :: post)
      = rpc_dlg_stats_active own (pre ++ (mid1 ++ mid2) :: post) := by
  constructor
  · rfl
  · unfold rpc_dlg_stats_active
    have houter :
        (pre ++ (mid1 ++ d :: mid2) :: post).foldl
            (fun acc shard => shard.foldl (stats_step own) acc) (0, 0, 0, 0)
          = (pre ++ (mid1 ++ mid2) :: post).foldl
            (fun acc shard => shard.foldl (stats_step own) acc) (0, 0, 0, 0) := by
      simp only [List.foldl_append, List.foldl_cons]
      rw [stats_step_of_inactive own _ d h0 h1 h2 h3]
    rw [houter]

/-- C9 witness: dropping a deleted-state dialog from a concrete table does
not change the dlg.stats_active output. -/
theorem c9_stats_active_sums_witness :
    rpc_dlg_stats_active 0 [[⟨0, false⟩, ⟨4, false⟩]]
      = rpc_dlg_stats_active 0 [[⟨0, false⟩]] :=
  (c9_stats_active_sums 0 [] [] [] [⟨0, false⟩] [] ⟨4, false⟩ (by decide)
    (by decide) (by decide) (by decide)).2

/-- C10: dlg_get rejects an empty To-tag without reaching the get_dlg
lookup; dlg_get_var and dlg_set_var accept an empty but non-null To-tag
and reach the lookup with it; all three reject a missing or empty Call-ID
or From-tag without reaching the lookup. The second component of each
result records whether the get_dlg lookup was reached. -/
theorem c10_totag_validation (sc sf st : Option KStr)
    (found varval_ok setvar_ok : Bool) :
    ki_dlg_get sc sf (some ⟨false, 0⟩) found = (-1, false)
    ∧ (kstr_bad sc = false → kstr_bad sf = false →
        ki_dlg_get_var_helper sc sf (some ⟨false, 0⟩) found varval_ok
          = (if found && varval_ok then 0 else -1, true))
    ∧ (kstr_bad sc = false → kstr_bad sf = false →
        ki_dlg_set_var sc sf (some ⟨false, 0⟩) found setvar_ok
          = (if found && setvar_ok then 1 else -1, true))
    ∧ (kstr_bad sc = true →
        ki_dlg_get sc sf st found = (-1, false)
        ∧ ki_dlg_get_var_helper sc sf st found varval_ok = (-1, false)
        ∧ ki_dlg_set_var sc sf st found setvar_ok = (-1, false))
    ∧ (kstr_bad sf = true →
        ki_dlg_get sc sf st found = (-1, false)
        ∧ ki_dlg_get_var_helper sc sf st found varval_ok = (-1, false)
        ∧ ki_dlg_set_var sc sf st found setvar_ok = (-1, false)) := by
  refine ⟨?_, ?_, ?_, ?_, ?_⟩
  · unfold ki_dlg_get
    split_ifs <;> simp_all [kstr_bad]
  · intro hsc hsf
    cases found <;> cases varval_ok <;>
      simp [ki_dlg_get_var_helper, hsc, hsf]
  · intro hsc hsf
    cases found <;> cases setvar_ok <;>
      simp [ki_dlg_set_var, hsc, hsf]
  · intro hsc
    exact ⟨by simp [ki_dlg_get, hsc], by simp [ki_dlg_get_var_helper, hsc],
      by simp [ki_dlg_set_var, hsc]⟩
  · intro hsf
    exact ⟨by simp [ki_dlg_get, hsf], by simp [ki_dlg_get_var_helper, hsf],
      by simp [ki_dlg_set_var, hsf]⟩

/-- C10 witness at concrete inputs: with valid Call-ID and From-tag, an
empty non-null To-tag makes dlg_get fail without lookup while dlg_get_var
and dlg_set_var reach the lookup. -/
theorem c10_totag_validation_witness :
    ki_dlg_get (some ⟨false, 9⟩) (some ⟨false, 3⟩) (some ⟨false, 0⟩) true
      = (-1, false)
    ∧ ki_dlg_get_var_helper (some ⟨false, 9⟩) (some ⟨false, 3⟩)
        (some ⟨false, 0⟩) true true = (0, true)
    ∧ ki_dlg_set_var (some ⟨false, 9⟩) (some ⟨false, 3⟩) (some ⟨false, 0⟩)
        true true = (1, true) := by
  have h := c10_totag_validation (some ⟨false, 9⟩) (some ⟨false, 3⟩)
    (some ⟨false, 0⟩) true true true
  exact ⟨h.1, by simpa using h.2.1 (by decide) (by decide),
    by simpa using h.2.2.1 (by decide) (by decide)⟩

/-- Helper: a successfully parsed matching operator is two characters
long. -/
theorem parse_mop_length_two (mop : List Char) (vop : Nat)
    (h : parse_mop mop = some vop) : mop.length = 2 := by
  unfold parse_mop at h
  split_ifs at h with h1 h2 h3 h4 h5
  · subst h1; decide
  · subst h2; decide
  · subst h3; decide
  · subst h4; decide
  · subst h5; decide

/-- Helper: a successfully parsed matching key is a nonempty string. -/
theorem parse_mkey_ne_nil (mkey : List Char) (vkey : Nat)
    (h : parse_mkey mkey = some vkey) : mkey ≠ [] := by
  unfold parse_mkey at h
  split_ifs at h with h1 h2 h3 h4 h5
  · subst h1; decide
  · subst h2; decide
  · subst h3; decide
  · subst h4; decide
  · subst h5; decide

/-- Helper: once both the key and the operator parse, dlg.list_match
reduces to the operator/key compatibility gate followed by the table
scan. -/
theorem rpc_dlg_list_match_parsed (scan_n : Nat) (mkey mop mval : List Char)
    (vkey vop : Nat) (re_ok : Bool) (rm : List Char → Bool) (nlimit : Int)
    (dlgs : List MDlg) (hsn : 3 ≤ scan_n) (hmv : mval ≠ [])
    (hmk : parse_mkey mkey = some vkey) (hmop : parse_mop mop = some vop) :
    rpc_dlg_list_match scan_n mkey mop mval re_ok rm nlimit dlgs
      = (if vop = 1 ∧ ¬re_ok then
          MatchRes.early_fault 500 "Invalid matching value parameter"
        else if vkey = 4 ∧ vop ≤ 2 then
          MatchRes.early_fault 500
            "Matching operator not supported with start_ts key"
        else if vkey ≠ 4 ∧ vop ≥ 3 then
          MatchRes.early_fault 500 "Matching operator not supported"
        else
          let ms := dlgs.filter (dlg_match_one vkey vop mval rm)
          let printed := if nlimit > 0 then ms.take nlimit.toNat else ms
          if ms.length = 0 then
            MatchRes.scanned printed (RpcOut.fault 404 "Not found")
          else MatchRes.scanned printed RpcOut.ok) := by
  have hlen2 := parse_mop_length_two mop vop hmop
  unfold rpc_dlg_list_match
  rw [if_neg (by omega)]
  rw [if_neg (by
    simp only [List.length_eq_zero]
    push_neg
    exact ⟨parse_mkey_ne_nil mkey vkey hmk, List.length_pos.mp (by omega),
      hmv⟩)]
  split
  · simp_all
  · rename_i vkey2 heq
    rw [hmk] at heq
    obtain rfl : vkey = vkey2 := Option.some.inj heq
    rw [if_neg (by omega)]
    split
    · simp_all
    · rename_i vop2 heq2
      rw [hmop] at heq2
      obtain rfl : vop = vop2 := Option.some.inj heq2
      rfl

/-- C4: for dlg.list_match, the `sw` operator matches exactly when the
value is a prefix of the selected string field; `gt` and `lt` with the
`start_ts` key compare the dialog's start_ts numerically against the
value; `eq`, `re` or `sw` combined with `start_ts`, `gt` or `lt` combined
with any other key, an unknown key and an unknown operator are all
rejected with a fault before the table scan; and `gt`/`lt` together with
`start_ts` proceed to the scan. -/
theorem c4_list_match_operators :
    (∀ (vkey : Nat) (mval : List Char) (rm : List Char → Bool) (dlg : MDlg),
        dlg_match_one vkey 2 mval rm dlg = true ↔ mval <+: sel_field vkey dlg)
    ∧ (∀ (mval : List Char) (rm : List Char → Bool) (dlg : MDlg),
        dlg_match_one 4 3 mval rm dlg = true ↔
          ∃ v, str2int mval = some v ∧ v < dlg.start_ts)
    ∧ (∀ (mval : List Char) (rm : List Char → Bool) (dlg : MDlg),
        dlg_match_one 4 4 mval rm dlg = true ↔
          ∃ v, str2int mval = some v ∧ dlg.start_ts < v)
    ∧ (∀ (scan_n : Nat) (mop mval : List Char) (vop : Nat) (re_ok : Bool)
        (rm : List Char → Bool) (nlimit : Int) (dlgs : List MDlg),
        3 ≤ scan_n → mval ≠ [] → parse_mop mop = some vop → vop ≤ 2 →
        ∃ code reason,
          rpc_dlg_list_match scan_n (String.toList "start_ts") mop mval re_ok
            rm nlimit dlgs = MatchRes.early_fault code reason)
    ∧ (∀ (scan_n : Nat) (mkey mop mval : List Char) (vkey vop : Nat)
        (re_ok : Bool) (rm : List Char → Bool) (nlimit : Int)
        (dlgs : List MDlg),
        3 ≤ scan_n → mval ≠ [] → parse_mkey mkey = some vkey → vkey ≠ 4 →
        parse_mop mop = some vop → 3 ≤ vop →
        ∃ code reason, rpc_dlg_list_match scan_n mkey mop mval re_ok rm nlimit
          dlgs = MatchRes.early_fault code reason)
    ∧ (∀ (scan_n : Nat) (mkey mop mval : List Char) (re_ok : Bool)
        (rm : List Char → Bool) (nlimit : Int) (dlgs : List MDlg),
        3 ≤ scan_n → mkey ≠ [] → mop ≠ [] → mval ≠ [] →
        parse_mkey mkey = none →
        ∃ code reason, rpc_dlg_list_match scan_n mkey mop mval re_ok rm nlimit
          dlgs = MatchRes.early_fault code reason)
    ∧ (∀ (scan_n : Nat) (mkey mop mval : List Char) (vkey : Nat)
        (re_ok : Bool) (rm : List Char → Bool) (nlimit : Int)
        (dlgs : List MDlg),
        3 ≤ scan_n → mop ≠ [] → mval ≠ [] → parse_mkey mkey = some vkey →
        parse_mop mop = none →
        ∃ code reason, rpc_dlg_list_match scan_n mkey mop mval re_ok rm nlimit
          dlgs = MatchRes.early_fault code reason)
    ∧ (∀ (scan_n : Nat) (mop mval : List Char) (re_ok : Bool)
        (rm : List Char → Bool) (nlimit : Int) (dlgs : List MDlg),
        3 ≤ scan_n → mval ≠ [] →
        (mop = String.toList "gt" ∨ mop = String.toList "lt") →
        ∃ printed out,
          rpc_dlg_list_match scan_n (String.toList "start_ts") mop mval re_ok
            rm nlimit dlgs = MatchRes.scanned printed out) := by
  refine ⟨?_, ?_, ?_, ?_, ?_, ?_, ?_, ?_⟩
  · intro vkey mval rm dlg
    have hred : dlg_match_one vkey 2 mval rm dlg
        = (decide (mval.length ≤ (sel_field vkey dlg).length)
            && strncmp0 mval (sel_field vkey dlg) mval.length) := rfl
    rw [hred]
    unfold strncmp0
    simp only [Bool.and_eq_true, decide_eq_true_eq, beq_iff_eq,
      List.take_length]
    constructor
    · rintro ⟨hle, heq⟩
      exact List.prefix_iff_eq_take.mpr heq
    · intro h
      exact ⟨h.length_le, List.prefix_iff_eq_take.mp h⟩
  · intro mval rm dlg
    have hred : dlg_match_one 4 3 mval rm dlg
        = (match str2int mval with
           | some mival => decide (dlg.start_ts > mival)
           | none => false) := rfl
    rw [hred]
    cases hs : str2int mval <;> simp [hs]
  · intro mval rm dlg
    have hred : dlg_match_one 4 4 mval rm dlg
        = (match str2int mval with
           | some mival => decide (dlg.start_ts < mival)
           | none => false) := rfl
    rw [hred]
    cases hs : str2int mval <;> simp [hs]
  · intro scan_n mop mval vop re_ok rm nlimit dlgs hsn hmv hmop hvle
    rw [rpc_dlg_list_match_parsed scan_n _ mop mval 4 vop re_ok rm nlimit
      dlgs hsn hmv (by decide) hmop]
    by_cases hc1 : vop = 1 ∧ ¬re_ok
    · rw [if_pos hc1]
      exact ⟨_, _, rfl⟩
    · rw [if_neg hc1, if_pos ⟨rfl, hvle⟩]
      exact ⟨_, _, rfl⟩
  · intro scan_n mkey mop mval vkey vop re_ok rm nlimit dlgs hsn hmv hmk hvk
      hmop hvop
    rw [rpc_dlg_list_match_parsed scan_n mkey mop mval vkey vop re_ok rm
      nlimit dlgs hsn hmv hmk hmop]
    by_cases hc1 : vop = 1 ∧ ¬re_ok
    · rw [if_pos hc1]
      exact ⟨_, _, rfl⟩
    · rw [if_neg hc1, if_neg (fun hh => hvk hh.1), if_pos ⟨hvk, hvop⟩]
      exact ⟨_, _, rfl⟩
  · intro scan_n mkey mop mval re_ok rm nlimit dlgs hsn hk hop hmv hmk
    unfold rpc_dlg_list_match
    rw [if_neg (by omega)]
    rw [if_neg (by
      simp only [List.length_eq_zero]
      push_neg
      exact ⟨hk, hop, hmv⟩)]
    split
    · exact ⟨_, _, rfl⟩
    · simp_all
  · intro scan_n mkey mop mval vkey re_ok rm nlimit dlgs hsn hop hmv hmk hmop
    unfold rpc_dlg_list_match
    rw [if_neg (by omega)]
    rw [if_neg (by
      simp only [List.length_eq_zero]
      push_neg
      exact ⟨parse_mkey_ne_nil mkey vkey hmk, hop, hmv⟩)]
    split
    · simp_all
    · rename_i vkey2 heq
      by_cases hl : mop.length ≠ 2
      · rw [if_pos hl]
        exact ⟨_, _, rfl⟩
      · rw [if_neg hl]
        split
        · exact ⟨_, _, rfl⟩
        · simp_all
  · intro scan_n mop mval re_ok rm nlimit dlgs hsn hmv hop
    rcases hop with h | h <;> subst h
    · rw [rpc_dlg_list_match_parsed scan_n _ _ mval 4 3 re_ok rm nlimit dlgs
        hsn hmv (by decide) (by decide)]
      rw [if_neg (by simp), if_neg (by simp), if_neg (by simp)]
      dsimp only
      split_ifs <;> exact ⟨_, _, rfl⟩
    · rw [rpc_dlg_list_match_parsed scan_n _ _ mval 4 4 re_ok rm nlimit dlgs
        hsn hmv (by decide) (by decide)]
      rw [if_neg (by simp), if_neg (by simp), if_neg (by simp)]
      dsimp only
      split_ifs <;> exact ⟨_, _, rfl⟩

/-- C4 witness at concrete inputs: `eq` combined with `start_ts` is
rejected before the scan, and `gt` with `start_ts` reaches the scan. -/
theorem c4_list_match_operators_witness :
    (∃ code reason,
      rpc_dlg_list_match 3 (String.toList "start_ts") (String.toList "eq")
        (String.toList "7") true (fun _ => false) 0 []
        = MatchRes.early_fault code reason)
    ∧ (∃ printed out,
      rpc_dlg_list_match 3 (String.toList "start_ts") (String.toList "gt")
        (String.toList "7") true (fun _ => false) 0 []
        = MatchRes.scanned printed out) :=
  ⟨(c4_list_match_operators).2.2.2.1 3 (String.toList "eq")
      (String.toList "7") 0 true (fun _ => false) 0 [] (by decide) (by decide)
      (by decide) (by decide),
    (c4_list_match_operators).2.2.2.2.2.2.2 3 (String.toList "gt")
      (String.toList "7") true (fun _ => false) 0 [] (by decide) (by decide)
      (Or.inl rfl)⟩

end KamDialog
